import Mathlib

/-!
Shallow embedding of the Vibe Matcher backend (src/server.py).

Numeric model: Python floats are modelled exactly.  Scores that flow through
the search pipeline (threshold comparison, rounding to 4 decimals, sorting,
message selection) are modelled as rationals (ℚ), since every operation the
pipeline performs on them is exact arithmetic and comparison.  The cosine
similarity itself involves a square root and is modelled over ℝ
(`calculate_cosine_similarity` below); inside the search pipeline the numeric
value produced by the similarity call is abstracted as a parameter
`sim : List ℚ → List ℚ → Except String ℚ`, where the `Except` layer models the
exception raised by `sklearn.cosine_similarity` on dimension mismatch.  All
pipeline theorems are proved for every such `sim`, hence in particular for the
cosine instantiation.

Wall-clock quantities (`latency_ms`, `created_at`, `timestamp`) are omitted:
no claim depends on them.  The Mongo collections `products` and
`query_metrics` are modelled as two lists inside a `Store`; `insert_one` is
appending at the end, and the bounded fetch `to_list(100)` is `List.take 100`.
Fallible endpoints return `Except String _ × Store`: on error the store is the
unchanged input store, matching the Python code where the exception is raised
before any insert.
-/

/-- A stored product document (server.py, class `Product`; `created_at`
omitted, see header).  `embedding` is `none` when the document lacks the
field or holds `null`. -/
structure Product where
  id : String
  name : String
  description : String
  vibe_tags : List String
  category : String
  image_url : Option String
  embedding : Option (List ℚ)
deriving DecidableEq

/-- Request body of `POST /products` (server.py, class `ProductCreate`). -/
structure ProductCreate where
  name : String
  description : String
  vibe_tags : List String
  category : String
  image_url : Option String
deriving DecidableEq

/-- Request body of `POST /search` (server.py, class `VibeQuery`).  The API
boundary validates `1 ≤ limit ≤ 10` and `0 ≤ threshold ≤ 1`; those bounds are
stated as hypotheses where a theorem needs them. -/
structure VibeQuery where
  vibe : String
  limit : Nat
  threshold : ℚ
deriving DecidableEq

/-- One entry of the `results` list built by `search_by_vibe`
(server.py lines 170-178). -/
structure SimilarityResult where
  id : String
  name : String
  description : String
  vibe_tags : List String
  category : String
  image_url : Option String
  similarity_score : ℚ
deriving DecidableEq

/-- The metrics document inserted into the `query_metrics` collection
(server.py lines 187-193; `latency_ms` and `timestamp` omitted, see header). -/
structure QueryMetricDoc where
  query : String
  results_count : Nat
  top_score : Option ℚ
deriving DecidableEq

/-- The `metrics` block of the search response (server.py lines 152-160 and
198-206).  The empty-store short-circuit response carries no `threshold_used`
key, hence the `Option`. -/
structure SearchMetrics where
  query : String
  results_count : Nat
  top_score : Option ℚ
  threshold_used : Option ℚ
  message : String
deriving DecidableEq

/-- Response of `POST /search`. -/
structure SearchResponse where
  results : List SimilarityResult
  metrics : SearchMetrics
deriving DecidableEq

/-- The two Mongo collections the server touches. -/
structure Store where
  products : List Product
  query_metrics : List QueryMetricDoc
deriving DecidableEq

/-- Python's `round(x, 4)` (server.py line 177), modelled as exact rounding of
a rational to the nearest multiple of 1/10000 (half rounds up here; the
claims never evaluate it at an exact half, where float `round` is
half-even). -/
def round4 (x : ℚ) : ℚ := (⌊x * 10000 + 1/2⌋ : ℤ) / 10000

/-- The result entry appended for a kept product, raw similarity `s`
(server.py lines 170-178): the stored `similarity_score` is the rounded
value. -/
def mkResult (p : Product) (s : ℚ) : SimilarityResult :=
  { id := p.id
    name := p.name
    description := p.description
    vibe_tags := p.vibe_tags
    category := p.category
    image_url := p.image_url
    similarity_score := round4 s }

/-- The scoring loop of `search_by_vibe` (server.py lines 164-178): walk the
fetched products in order; skip a product whose `embedding` is missing or
empty (Python truthiness of `product.get('embedding')`); otherwise call the
similarity function, propagate its exception, and keep the product exactly
when the RAW similarity is `>= threshold`. -/
def scoreProducts (sim : List ℚ → List ℚ → Except String ℚ)
    (queryEmbedding : List ℚ) (threshold : ℚ) :
    List Product → Except String (List SimilarityResult)
  | [] => .ok []
  | p :: ps =>
    match p.embedding with
    | none => scoreProducts sim queryEmbedding threshold ps
    | some emb =>
      if emb.isEmpty then scoreProducts sim queryEmbedding threshold ps
      else
        match sim queryEmbedding emb with
        | .error e => .error e
        | .ok s =>
          match scoreProducts sim queryEmbedding threshold ps with
          | .error e => .error e
          | .ok rest =>
            .ok (if threshold ≤ s then mkResult p s :: rest else rest)

/-- Insert `x` into `l` before the first element whose `similarity_score` is
not larger: one step of the stable descending sort modelling
`results.sort(key=lambda x: x['similarity_score'], reverse=True)`. -/
def insertDesc (x : SimilarityResult) : List SimilarityResult → List SimilarityResult
  | [] => [x]
  | y :: ys =>
    if x.similarity_score < y.similarity_score then y :: insertDesc x ys
    else x :: y :: ys

/-- Stable sort by `similarity_score` descending (server.py line 181).
Python's `list.sort` is a stable sort; a stable sort's output is uniquely
determined by the key and the input order, so stable insertion sort is an
exact model. -/
def sortDesc : List SimilarityResult → List SimilarityResult
  | [] => []
  | x :: xs => insertDesc x (sortDesc xs)

/-- The quality message of the search response (server.py lines 204-205):
compares the ROUNDED top score against 0.8, strictly. -/
def qualityMessage (results : List SimilarityResult) : String :=
  match results with
  | [] => "No matches above threshold. Try different vibes!"
  | r :: _ =>
    if 8/10 < r.similarity_score then "Good match found!" else "Matches found"

/-- The `POST /search` handler (server.py lines 139-210).  `qe` is the result
of the external `generate_embedding(query.vibe)` call; `sim` models
`calculate_cosine_similarity` (see header).  Returns the response (or the
propagated error, which FastAPI turns into a 500) together with the store
after the request. -/
def search_by_vibe (sim : List ℚ → List ℚ → Except String ℚ)
    (qe : Except String (List ℚ)) (query : VibeQuery) (s : Store) :
    Except String SearchResponse × Store :=
  match qe with
  | .error e => (.error e, s)
  | .ok queryEmbedding =>
    let products := s.products.take 100
    if products.isEmpty then
      (.ok { results := []
             metrics := { query := query.vibe
                          results_count := 0
                          top_score := none
                          threshold_used := none
                          message := "No products found. Please add products first." } },
       s)
    else
      match scoreProducts sim queryEmbedding query.threshold products with
      | .error e => (.error e, s)
      | .ok scored =>
        let results := (sortDesc scored).take query.limit
        let top := results.head?.map (fun r => r.similarity_score)
        (.ok { results := results
               metrics := { query := query.vibe
                            results_count := results.length
                            top_score := top
                            threshold_used := some query.threshold
                            message := qualityMessage results } },
         { s with query_metrics := s.query_metrics ++
             [{ query := query.vibe, results_count := results.length, top_score := top }] })

/-- The text blob embedded at product creation (server.py line 105). -/
def combinedText (pi : ProductCreate) : String :=
  pi.name ++ ". " ++ pi.description ++ ". Vibes: " ++ String.intercalate ", " pi.vibe_tags

/-- The `POST /products` handler (server.py lines 100-124).  `embed` models
the external `generate_embedding` call; `pid` models the generated UUID.  The
embedding is generated strictly before the insert, so on embedding failure
the store is returned unchanged. -/
def create_product (embed : String → Except String (List ℚ)) (pid : String)
    (pin : ProductCreate) (s : Store) : Except String Product × Store :=
  match embed (combinedText pin) with
  | .error e => (.error e, s)
  | .ok emb =>
    let p : Product :=
      { id := pid
        name := pin.name
        description := pin.description
        vibe_tags := pin.vibe_tags
        category := pin.category
        image_url := pin.image_url
        embedding := some emb }
    (.ok p, { s with products := s.products ++ [p] })

/-- Sum of pointwise products, `float(np.dot)`-style over the common prefix
(the two vectors are required to have equal length before this is used). -/
def dotList : List ℝ → List ℝ → ℝ
  | a :: as_, b :: bs => a * b + dotList as_ bs
  | _, _ => 0

/-- `calculate_cosine_similarity` (server.py lines 90-94):
`sklearn.cosine_similarity` raises `ValueError` when the two row vectors have
different dimensions, and otherwise returns dot(a,b) / (‖a‖·‖b‖). -/
noncomputable def calculate_cosine_similarity (a b : List ℝ) :
    Except String ℝ :=
  if a.length = b.length then
    .ok (dotList a b / (Real.sqrt (dotList a a) * Real.sqrt (dotList b b)))
  else
    .error "Incompatible dimension for cosine similarity"

/-- The shape of `calculate_cosine_similarity` as seen by the search pipeline
over the exact score field ℚ: the numeric core is a parameter `v`, the
dimension-mismatch exception is the source's. -/
def simModel (v : List ℚ → List ℚ → ℚ) (a b : List ℚ) : Except String ℚ :=
  if a.length = b.length then .ok (v a b)
  else .error "Incompatible dimension for cosine similarity"

/-- The response of the empty-store short-circuit (server.py lines 151-161). -/
def noProductsResponse (q : VibeQuery) : SearchResponse :=
  { results := []
    metrics := { query := q.vibe
                 results_count := 0
                 top_score := none
                 threshold_used := none
                 message := "No products found. Please add products first." } }

/-- The final results list of a non-short-circuited search: kept entries `l`,
sorted by score descending, truncated to the limit (server.py lines 180-182). -/
def scoredResults (q : VibeQuery) (l : List SimilarityResult) : List SimilarityResult :=
  (sortDesc l).take q.limit

/-- The response of a non-short-circuited search (server.py lines 196-207). -/
def scoredResponse (q : VibeQuery) (l : List SimilarityResult) : SearchResponse :=
  { results := scoredResults q l
    metrics := { query := q.vibe
                 results_count := (scoredResults q l).length
                 top_score := (scoredResults q l).head?.map (fun r => r.similarity_score)
                 threshold_used := some q.threshold
                 message := qualityMessage (scoredResults q l) } }

/-- The metrics document a non-short-circuited search inserts
(server.py lines 187-194). -/
def scoredMetric (q : VibeQuery) (l : List SimilarityResult) : QueryMetricDoc :=
  { query := q.vibe
    results_count := (scoredResults q l).length
    top_score := (scoredResults q l).head?.map (fun r => r.similarity_score) }

/-! Concrete instances used by counterexamples and witnesses. -/

/-- A similarity oracle returning a constant score 0.5. -/
def vHalf : List ℚ → List ℚ → ℚ := fun _ _ => 1/2

/-- A similarity oracle returning the constant 0. -/
def vZero : List ℚ → List ℚ → ℚ := fun _ _ => 0

/-- A similarity oracle: 0.5 for embedding `[1]`, 0.9 otherwise. -/
def vSplitLow : List ℚ → List ℚ → ℚ := fun _ b => if b = [1] then 1/2 else 9/10

/-- A similarity oracle: exactly 0.7 for embedding `[1]`, 0.9 otherwise. -/
def vSplitEq : List ℚ → List ℚ → ℚ := fun _ b => if b = [1] then 7/10 else 9/10

/-- A similarity oracle: 0.8 for embedding `[1]`, 0.9 otherwise. -/
def vSplitSort : List ℚ → List ℚ → ℚ := fun _ b => if b = [1] then 8/10 else 9/10

/-- A similarity oracle returning raw score 0.70004, which rounds to 0.7. -/
def vLow : List ℚ → List ℚ → ℚ := fun _ _ => 70004/100000

/-- A similarity oracle returning raw score 0.80004, which rounds to 0.8. -/
def vHigh : List ℚ → List ℚ → ℚ := fun _ _ => 80004/100000

/-- A vibe query with the server defaults: limit 3, threshold 0.7. -/
def qA : VibeQuery := { vibe := "cozy", limit := 3, threshold := 7/10 }

/-- A vibe query whose threshold 0.70003 sits between 0.7 and 0.70004. -/
def qLow : VibeQuery := { vibe := "cozy", limit := 3, threshold := 70003/100000 }

def emptyStore : Store := { products := [], query_metrics := [] }

def prodA : Product :=
  { id := "p1", name := "Cozy Knit Sweater", description := "Oversized chunky knit sweater"
    vibe_tags := ["cozy"], category := "tops", image_url := none, embedding := some [1] }

def prodB : Product :=
  { id := "p2", name := "Urban Leather Jacket", description := "Sleek black leather jacket"
    vibe_tags := ["urban"], category := "outerwear", image_url := none, embedding := some [2] }

/-- A stored product whose embedding length 2 differs from the query's. -/
def prodM : Product :=
  { id := "pm", name := "Corrupted", description := "bad record"
    vibe_tags := [], category := "tops", image_url := none, embedding := some [1, 2] }

def storeA : Store := { products := [prodA], query_metrics := [] }

def storeAB : Store := { products := [prodA, prodB], query_metrics := [] }

def storeM : Store := { products := [prodM], query_metrics := [] }

/-- The kept list of the `vSplitSort` scenario on `storeAB`, in store order. -/
def lC : List SimilarityResult := [mkResult prodA (8/10), mkResult prodB (9/10)]

/-- An embedding provider that always fails. -/
def embedFail : String → Except String (List ℚ) := fun _ => .error "boom"

def pinA : ProductCreate :=
  { name := "Boho Maxi Dress", description := "Flowy maxi dress"
    vibe_tags := ["boho", "festival"], category := "dresses", image_url := none }

theorem mem_insertDesc {x a : SimilarityResult} :
    ∀ {l : List SimilarityResult}, a ∈ insertDesc x l ↔ a = x ∨ a ∈ l := by
  intro l
  induction l with
  | nil => simp [insertDesc]
  | cons y ys ih =>
    by_cases h : x.similarity_score < y.similarity_score
    · simp only [insertDesc, if_pos h, List.mem_cons, ih]
      tauto
    · simp only [insertDesc, if_neg h, List.mem_cons]

theorem length_insertDesc (x : SimilarityResult) :
    ∀ l : List SimilarityResult, (insertDesc x l).length = l.length + 1 := by
  intro l
  induction l with
  | nil => rfl
  | cons y ys ih =>
    by_cases h : x.similarity_score < y.similarity_score
    · simp only [insertDesc, if_pos h, List.length_cons, ih]
    · simp only [insertDesc, if_neg h, List.length_cons]

theorem length_sortDesc : ∀ l : List SimilarityResult, (sortDesc l).length = l.length := by
  intro l
  induction l with
  | nil => rfl
  | cons x xs ih => simp only [sortDesc, length_insertDesc, ih, List.length_cons]

theorem mem_sortDesc {a : SimilarityResult} :
    ∀ {l : List SimilarityResult}, a ∈ sortDesc l ↔ a ∈ l := by
  intro l
  induction l with
  | nil => simp [sortDesc]
  | cons x xs ih => simp [sortDesc, mem_insertDesc, ih]

theorem pairwise_insertDesc {x : SimilarityResult} {l : List SimilarityResult}
    (hl : l.Pairwise (fun a b => b.similarity_score ≤ a.similarity_score)) :
    (insertDesc x l).Pairwise (fun a b => b.similarity_score ≤ a.similarity_score) := by
  induction l with
  | nil => simp [insertDesc]
  | cons y ys ih =>
    rcases List.pairwise_cons.mp hl with ⟨hy, hys⟩
    by_cases h : x.similarity_score < y.similarity_score
    · rw [insertDesc, if_pos h]
      refine List.pairwise_cons.mpr ⟨?_, ih hys⟩
      intro z hz
      rcases mem_insertDesc.mp hz with rfl | hz2
      · exact le_of_lt h
      · exact hy z hz2
    · rw [insertDesc, if_neg h]
      push_neg at h
      refine List.pairwise_cons.mpr ⟨?_, hl⟩
      intro z hz
      rcases List.mem_cons.mp hz with rfl | hz2
      · exact h
      · exact le_trans (hy z hz2) h

theorem pairwise_sortDesc :
    ∀ l : List SimilarityResult,
      (sortDesc l).Pairwise (fun a b => b.similarity_score ≤ a.similarity_score) := by
  intro l
  induction l with
  | nil => simp [sortDesc]
  | cons x xs ih => exact pairwise_insertDesc ih

theorem filter_insertDesc (c : ℚ) (x : SimilarityResult) :
    ∀ l : List SimilarityResult,
      (insertDesc x l).filter (fun r => decide (r.similarity_score = c)) =
        if x.similarity_score = c
        then x :: l.filter (fun r => decide (r.similarity_score = c))
        else l.filter (fun r => decide (r.similarity_score = c)) := by
  intro l
  induction l with
  | nil =>
    by_cases hx : x.similarity_score = c <;> simp [insertDesc, hx]
  | cons y ys ih =>
    by_cases h : x.similarity_score < y.similarity_score
    · rw [insertDesc, if_pos h]
      by_cases hx : x.similarity_score = c
      · have hy : ¬ y.similarity_score = c := by
          rw [← hx]; exact ne_of_gt h
        simp [List.filter_cons, hy, ih, hx]
      · simp [List.filter_cons, ih, hx]
    · rw [insertDesc, if_neg h]
      by_cases hx : x.similarity_score = c <;> simp [List.filter_cons, hx]

theorem filter_sortDesc (c : ℚ) :
    ∀ l : List SimilarityResult,
      (sortDesc l).filter (fun r => decide (r.similarity_score = c)) =
        l.filter (fun r => decide (r.similarity_score = c)) := by
  intro l
  induction l with
  | nil => rfl
  | cons x xs ih =>
    rw [sortDesc, filter_insertDesc]
    by_cases hx : x.similarity_score = c <;> simp [List.filter_cons, hx, ih]

theorem scoreProducts_nil (sim : List ℚ → List ℚ → Except String ℚ)
    (qe : List ℚ) (t : ℚ) : scoreProducts sim qe t [] = .ok [] := rfl

theorem scoreProducts_cons_none {p : Product}
    (sim : List ℚ → List ℚ → Except String ℚ) (qe : List ℚ) (t : ℚ)
    (ps : List Product) (h : p.embedding = none) :
    scoreProducts sim qe t (p :: ps) = scoreProducts sim qe t ps := by
  rw [scoreProducts, h]

theorem scoreProducts_cons_emptyEmb {p : Product} {emb : List ℚ}
    (sim : List ℚ → List ℚ → Except String ℚ) (qe : List ℚ) (t : ℚ)
    (ps : List Product) (h : p.embedding = some emb) (he : emb.isEmpty = true) :
    scoreProducts sim qe t (p :: ps) = scoreProducts sim qe t ps := by
  rw [scoreProducts, h]
  simp [he]

theorem scoreProducts_cons_some {p : Product} {emb : List ℚ}
    (sim : List ℚ → List ℚ → Except String ℚ) (qe : List ℚ) (t : ℚ)
    (ps : List Product) (h : p.embedding = some emb) (he : emb.isEmpty = false) :
    scoreProducts sim qe t (p :: ps) =
      match sim qe emb with
      | .error e => .error e
      | .ok s =>
        match scoreProducts sim qe t ps with
        | .error e => .error e
        | .ok rest => .ok (if t ≤ s then mkResult p s :: rest else rest) := by
  rw [scoreProducts, h]
  simp [he]

theorem mem_of_scoreProducts_ok {sim : List ℚ → List ℚ → Except String ℚ}
    {qe : List ℚ} {t : ℚ} :
    ∀ {ps : List Product} {l : List SimilarityResult},
      scoreProducts sim qe t ps = .ok l → ∀ r ∈ l,
        ∃ p emb sc, p ∈ ps ∧ p.embedding = some emb ∧ emb.isEmpty = false ∧
          sim qe emb = .ok sc ∧ t ≤ sc ∧ r = mkResult p sc := by
  intro ps
  induction ps with
  | nil =>
    intro l h r hr
    rw [scoreProducts_nil] at h
    simp only [Except.ok.injEq] at h
    subst h
    simp at hr
  | cons p ps ih =>
    intro l h r hr
    cases hpe : p.embedding with
    | none =>
      rw [scoreProducts_cons_none sim qe t ps hpe] at h
      rcases ih h r hr with ⟨p2, emb, sc, hp2, rest⟩
      exact ⟨p2, emb, sc, List.mem_cons_of_mem _ hp2, rest⟩
    | some emb =>
      by_cases hem : emb.isEmpty
      · rw [scoreProducts_cons_emptyEmb sim qe t ps hpe hem] at h
        rcases ih h r hr with ⟨p2, emb2, sc, hp2, rest⟩
        exact ⟨p2, emb2, sc, List.mem_cons_of_mem _ hp2, rest⟩
      · rw [scoreProducts_cons_some sim qe t ps hpe (Bool.eq_false_iff.mpr hem)] at h
        cases hsim : sim qe emb with
        | error e => rw [hsim] at h; exact absurd h (by simp)
        | ok sc =>
          rw [hsim] at h
          cases hrest : scoreProducts sim qe t ps with
          | error e => rw [hrest] at h; exact absurd h (by simp)
          | ok rest =>
            rw [hrest] at h
            simp only [Except.ok.injEq] at h
            subst h
            by_cases ht : t ≤ sc
            · rw [if_pos ht] at hr
              rcases List.mem_cons.mp hr with rfl | hr2
              · exact ⟨p, emb, sc, List.mem_cons_self p ps, hpe,
                  Bool.eq_false_iff.mpr hem, hsim, ht, rfl⟩
              · rcases ih hrest r hr2 with ⟨p2, emb2, sc2, hp2, rest2⟩
                exact ⟨p2, emb2, sc2, List.mem_cons_of_mem _ hp2, rest2⟩
            · rw [if_neg ht] at hr
              rcases ih hrest r hr with ⟨p2, emb2, sc2, hp2, rest2⟩
              exact ⟨p2, emb2, sc2, List.mem_cons_of_mem _ hp2, rest2⟩

theorem scoreProducts_keeps {sim : List ℚ → List ℚ → Except String ℚ}
    {qe : List ℚ} {t : ℚ} {p : Product} {emb : List ℚ} {sc : ℚ}
    (hemb : p.embedding = some emb) (hem : emb.isEmpty = false)
    (hsim : sim qe emb = .ok sc) (ht : t ≤ sc) :
    ∀ {ps : List Product} {l : List SimilarityResult},
      p ∈ ps → scoreProducts sim qe t ps = .ok l → mkResult p sc ∈ l := by
  intro ps
  induction ps with
  | nil => intro l hp; simp at hp
  | cons q qs ih =>
    intro l hp h
    rcases List.mem_cons.mp hp with rfl | hp2
    · rw [scoreProducts_cons_some sim qe t qs hemb hem, hsim] at h
      cases hrest : scoreProducts sim qe t qs with
      | error e => rw [hrest] at h; exact absurd h (by simp)
      | ok rest =>
        rw [hrest] at h
        simp only [Except.ok.injEq] at h
        subst h
        rw [if_pos ht]
        exact List.mem_cons_self _ _
    · cases hqe : q.embedding with
      | none =>
        rw [scoreProducts_cons_none sim qe t qs hqe] at h
        exact ih hp2 h
      | some emb2 =>
        by_cases hem2 : emb2.isEmpty
        · rw [scoreProducts_cons_emptyEmb sim qe t qs hqe hem2] at h
          exact ih hp2 h
        · rw [scoreProducts_cons_some sim qe t qs hqe (Bool.eq_false_iff.mpr hem2)] at h
          cases hsim2 : sim qe emb2 with
          | error e => rw [hsim2] at h; exact absurd h (by simp)
          | ok sc2 =>
            rw [hsim2] at h
            cases hrest : scoreProducts sim qe t qs with
            | error e => rw [hrest] at h; exact absurd h (by simp)
            | ok rest =>
              rw [hrest] at h
              simp only [Except.ok.injEq] at h
              subst h
              by_cases ht2 : t ≤ sc2
              · rw [if_pos ht2]
                exact List.mem_cons_of_mem _ (ih hp2 hrest)
              · rw [if_neg ht2]
                exact ih hp2 hrest

theorem scoreProducts_error {sim : List ℚ → List ℚ → Except String ℚ}
    {qe : List ℚ} {t : ℚ} {p : Product} {emb : List ℚ} {e : String}
    (hemb : p.embedding = some emb) (hem : emb.isEmpty = false)
    (hsim : sim qe emb = .error e) :
    ∀ {ps : List Product}, p ∈ ps →
      ∃ e2, scoreProducts sim qe t ps = .error e2 := by
  intro ps
  induction ps with
  | nil => intro hp; simp at hp
  | cons q qs ih =>
    intro hp
    rcases List.mem_cons.mp hp with rfl | hp2
    · rw [scoreProducts_cons_some sim qe t qs hemb hem, hsim]
      exact ⟨e, rfl⟩
    · rcases ih hp2 with ⟨e2, he2⟩
      cases hqe : q.embedding with
      | none =>
        rw [scoreProducts_cons_none sim qe t qs hqe]
        exact ⟨e2, he2⟩
      | some emb2 =>
        by_cases hem2 : emb2.isEmpty
        · rw [scoreProducts_cons_emptyEmb sim qe t qs hqe hem2]
          exact ⟨e2, he2⟩
        · rw [scoreProducts_cons_some sim qe t qs hqe (Bool.eq_false_iff.mpr hem2)]
          cases hsim2 : sim qe emb2 with
          | error e3 => exact ⟨e3, rfl⟩
          | ok sc2 => rw [he2]; exact ⟨e2, rfl⟩

theorem take100_isEmpty_eq_false {s : Store} (h : s.products ≠ []) :
    (s.products.take 100).isEmpty = false := by
  rw [List.isEmpty_eq_false]
  rw [Ne, List.take_eq_nil_iff]
  push_neg
  exact ⟨by norm_num, h⟩

theorem search_by_vibe_embErr (sim : List ℚ → List ℚ → Except String ℚ)
    (e : String) (q : VibeQuery) (s : Store) :
    search_by_vibe sim (.error e) q s = (.error e, s) := rfl

theorem search_by_vibe_empty (sim : List ℚ → List ℚ → Except String ℚ)
    (qe : List ℚ) (q : VibeQuery) (s : Store) (h : s.products = []) :
    search_by_vibe sim (.ok qe) q s = (.ok (noProductsResponse q), s) := by
  rw [search_by_vibe]
  simp only [h, List.take_nil, List.isEmpty_nil, if_true]
  rfl

theorem search_by_vibe_scoreErr (sim : List ℚ → List ℚ → Except String ℚ)
    (qe : List ℚ) (q : VibeQuery) (s : Store) (e : String)
    (hne : s.products ≠ [])
    (he : scoreProducts sim qe q.threshold (s.products.take 100) = .error e) :
    search_by_vibe sim (.ok qe) q s = (.error e, s) := by
  rw [search_by_vibe]
  simp only [take100_isEmpty_eq_false hne, Bool.false_eq_true, if_false, he]

theorem search_by_vibe_scored (sim : List ℚ → List ℚ → Except String ℚ)
    (qe : List ℚ) (q : VibeQuery) (s : Store) (l : List SimilarityResult)
    (hne : s.products ≠ [])
    (hl : scoreProducts sim qe q.threshold (s.products.take 100) = .ok l) :
    search_by_vibe sim (.ok qe) q s =
      (.ok (scoredResponse q l),
       { s with query_metrics := s.query_metrics ++ [scoredMetric q l] }) := by
  rw [search_by_vibe]
  simp only [take100_isEmpty_eq_false hne, Bool.false_eq_true, if_false, hl]
  rfl

theorem search_ok_cases {sim : List ℚ → List ℚ → Except String ℚ}
    {qe : List ℚ} {q : VibeQuery} {s : Store} {resp : SearchResponse} {s2 : Store}
    (h : search_by_vibe sim (.ok qe) q s = (.ok resp, s2)) :
    (s.products = [] ∧ resp = noProductsResponse q ∧ s2 = s) ∨
    (s.products ≠ [] ∧ ∃ l,
      scoreProducts sim qe q.threshold (s.products.take 100) = .ok l ∧
      resp = scoredResponse q l ∧
      s2 = { s with query_metrics := s.query_metrics ++ [scoredMetric q l] }) := by
  by_cases hp : s.products = []
  · left
    rw [search_by_vibe_empty sim qe q s hp] at h
    simp only [Prod.mk.injEq, Except.ok.injEq] at h
    exact ⟨hp, h.1.symm, h.2.symm⟩
  · right
    refine ⟨hp, ?_⟩
    cases hl : scoreProducts sim qe q.threshold (s.products.take 100) with
    | error e =>
      rw [search_by_vibe_scoreErr sim qe q s e hp hl] at h
      simp at h
    | ok l =>
      rw [search_by_vibe_scored sim qe q s l hp hl] at h
      simp only [Prod.mk.injEq, Except.ok.injEq] at h
      exact ⟨l, rfl, h.1.symm, h.2.symm⟩

theorem create_product_err {embed : String → Except String (List ℚ)}
    {pid : String} {pin : ProductCreate} {s : Store} {e : String}
    (he : embed (combinedText pin) = .error e) :
    create_product embed pid pin s = (.error e, s) := by
  rw [create_product, he]

theorem create_product_ok_eq {embed : String → Except String (List ℚ)}
    {pid : String} {pin : ProductCreate} {s : Store} {emb : List ℚ}
    (he : embed (combinedText pin) = .ok emb) :
    create_product embed pid pin s =
      (.ok { id := pid, name := pin.name, description := pin.description
             vibe_tags := pin.vibe_tags, category := pin.category
             image_url := pin.image_url, embedding := some emb },
       { s with products := s.products ++
           [{ id := pid, name := pin.name, description := pin.description
              vibe_tags := pin.vibe_tags, category := pin.category
              image_url := pin.image_url, embedding := some emb }] }) := by
  rw [create_product, he]

theorem dotList_comm : ∀ a b : List ℝ, dotList a b = dotList b a := by
  intro a
  induction a with
  | nil => intro b; cases b <;> rfl
  | cons x xs ih =>
    intro b
    cases b with
    | nil => rfl
    | cons y ys => rw [dotList, dotList, ih]; ring

/-- C6: when the product store is empty, POST /search returns an empty
results list and a metrics block whose message indicates that no products
exist, with results_count 0 and no top_score (and, in this branch, no
threshold_used key). -/
theorem empty_store_search_response (sim : List ℚ → List ℚ → Except String ℚ)
    (qe : List ℚ) (q : VibeQuery) (s : Store) (h : s.products = []) :
    search_by_vibe sim (.ok qe) q s =
      (.ok { results := []
             metrics := { query := q.vibe
                          results_count := 0
                          top_score := none
                          threshold_used := none
                          message := "No products found. Please add products first." } },
       s) :=
  search_by_vibe_empty sim qe q s h

/-- Witness for C6 at a concrete empty store. -/
theorem empty_store_search_response_witness :
    search_by_vibe (simModel vHalf) (.ok [1]) qA emptyStore =
      (.ok { results := []
             metrics := { query := qA.vibe
                          results_count := 0
                          top_score := none
                          threshold_used := none
                          message := "No products found. Please add products first." } },
       emptyStore) :=
  empty_store_search_response (simModel vHalf) [1] qA emptyStore rfl

/-- C7: product creation is atomic with respect to embedding failure: if the
embedding call fails the handler returns that error and the store is
unchanged (no product inserted); on success exactly the new product is
appended and it carries its embedding. -/
theorem create_product_atomic (embed : String → Except String (List ℚ))
    (pid : String) (pin : ProductCreate) (s : Store) :
    (∀ e, embed (combinedText pin) = .error e →
      create_product embed pid pin s = (.error e, s)) ∧
    (∀ p s2, create_product embed pid pin s = (.ok p, s2) →
      s2.products = s.products ++ [p] ∧ ∃ emb, p.embedding = some emb) := by
  constructor
  · intro e he
    exact create_product_err he
  · intro p s2 h
    cases he : embed (combinedText pin) with
    | error e =>
      rw [create_product_err he] at h
      simp at h
    | ok emb =>
      rw [create_product_ok_eq he] at h
      simp only [Prod.mk.injEq, Except.ok.injEq] at h
      rcases h with ⟨hp, hs2⟩
      subst hp
      subst hs2
      exact ⟨rfl, emb, rfl⟩

/-- Witness for C7: a failing embedding call leaves the store unchanged. -/
theorem create_product_atomic_witness :
    create_product embedFail "pid-1" pinA storeA = (.error "boom", storeA) :=
  (create_product_atomic embedFail "pid-1" pinA storeA).1 "boom" rfl

/-- C8: for vectors of equal length and nonzero magnitude, cosine similarity
is symmetric, and self-similarity is exactly 1 (the real-arithmetic reading
of "approximately 1.0"). -/
theorem cosine_similarity_symm_self (a b : List ℝ)
    (hlen : a.length = b.length) (hpos : 0 < dotList a a) :
    calculate_cosine_similarity a b = calculate_cosine_similarity b a ∧
    calculate_cosine_similarity a a = .ok 1 := by
  constructor
  · rw [calculate_cosine_similarity, calculate_cosine_similarity,
      if_pos hlen, if_pos hlen.symm, dotList_comm a b, mul_comm]
  · rw [calculate_cosine_similarity, if_pos rfl]
    rw [show Real.sqrt (dotList a a) * Real.sqrt (dotList a a) = dotList a a from
      Real.mul_self_sqrt (le_of_lt hpos)]
    rw [div_self (ne_of_gt hpos)]

/-- Witness for C8 on the unit vectors [1,0] and [0,1]. -/
theorem cosine_similarity_symm_self_witness :
    calculate_cosine_similarity [1, 0] [0, 1] =
      calculate_cosine_similarity [0, 1] [1, 0] ∧
    calculate_cosine_similarity [1, 0] [1, 0] = .ok 1 :=
  cosine_similarity_symm_self [1, 0] [0, 1] rfl (by norm_num [dotList])

/-- C9: a stored product whose (nonempty) embedding length differs from the
query embedding's length makes the whole search fail with an internal error
(the store left untouched): the dimension mismatch raised inside the
similarity computation propagates; no wrong or zero score is produced.  (A
record whose embedding is empty is instead excluded by the standing
missing-embedding skip.) -/
theorem mismatch_embedding_search_fails
    (v : List ℚ → List ℚ → ℚ) (qe : List ℚ) (q : VibeQuery) (s : Store)
    (p : Product) (emb : List ℚ)
    (hp : p ∈ s.products.take 100) (hemb : p.embedding = some emb)
    (hne : emb.isEmpty = false) (hlen : emb.length ≠ qe.length) :
    ∃ e, search_by_vibe (simModel v) (.ok qe) q s = (.error e, s) := by
  have hsim : simModel v qe emb = .error "Incompatible dimension for cosine similarity" := by
    rw [simModel, if_neg]
    exact fun hq => hlen hq.symm
  rcases scoreProducts_error (t := q.threshold) hemb hne hsim hp with ⟨e2, he2⟩
  have hne2 : s.products ≠ [] := by
    intro h0
    rw [h0] at hp
    simp at hp
  exact ⟨e2, search_by_vibe_scoreErr (simModel v) qe q s e2 hne2 he2⟩

/-- Witness for C9: query embedding [1] against stored embedding [1,2]. -/
theorem mismatch_embedding_search_fails_witness :
    ∃ e, search_by_vibe (simModel vZero) (.ok [1]) qA storeM = (.error e, storeM) :=
  mismatch_embedding_search_fails vZero [1] qA storeM prodM [1, 2]
    (by rw [show storeM.products = [prodM] from rfl,
          List.take_of_length_le (by norm_num)]
        exact List.mem_cons_self _ _)
    rfl rfl (by simp)

/-- C1 (amended): a search that reaches the scoring path (store non-empty)
appends exactly one QueryMetric document to the query-metrics store, even
when zero results are returned; the empty-store short-circuit returns a
metrics block in the HTTP response but appends no document to the store. -/
theorem search_metrics_append (sim : List ℚ → List ℚ → Except String ℚ)
    (qe : List ℚ) (q : VibeQuery) (s : Store) :
    (s.products ≠ [] → ∀ resp s2,
      search_by_vibe sim (.ok qe) q s = (.ok resp, s2) →
      s2.query_metrics = s.query_metrics ++
        [{ query := q.vibe
           results_count := resp.metrics.results_count
           top_score := resp.metrics.top_score }]) ∧
    (s.products = [] → (search_by_vibe sim (.ok qe) q s).2 = s) := by
  constructor
  · intro hne resp s2 h
    rcases search_ok_cases h with ⟨hp, _, _⟩ | ⟨_, l, _, hresp, hs2⟩
    · exact absurd hp hne
    · subst hresp
      subst hs2
      rfl
  · intro hp
    rw [search_by_vibe_empty sim qe q s hp]

/-- C1 counterexample: with an empty store the search call completes
successfully (it returns the no-products response, whose metrics block even
shows results_count 0 and no top score), yet the query-metrics store is left
with zero documents: no QueryMetric record is appended, refuting "every
search call appends exactly one QueryMetric record". -/
theorem search_empty_store_appends_no_metric :
    search_by_vibe (simModel vHalf) (.ok [1]) qA emptyStore =
      (.ok (noProductsResponse qA), emptyStore) ∧
    (search_by_vibe (simModel vHalf) (.ok [1]) qA emptyStore).2.query_metrics.length = 0 := by
  constructor
  · exact search_by_vibe_empty _ _ _ _ rfl
  · rw [search_by_vibe_empty _ _ _ _ rfl]
    rfl

/-- Witness for C1 (amended), on a non-empty store where every product falls
below the threshold: the search returns zero results and still appends
exactly one metric document (results_count 0, no top score). -/
theorem search_metrics_append_witness :
    ({ storeAB with query_metrics := storeAB.query_metrics ++ [scoredMetric qA []] } : Store).query_metrics =
      storeAB.query_metrics ++
        [{ query := qA.vibe
           results_count := (scoredResponse qA []).metrics.results_count
           top_score := (scoredResponse qA []).metrics.top_score }] := by
  have hne : storeAB.products ≠ [] := by simp [storeAB]
  have hscore : scoreProducts (simModel vHalf) [1] qA.threshold
      (storeAB.products.take 100) = .ok [] := by
    norm_num [storeAB, prodA, prodB, qA, scoreProducts, simModel, vHalf]
  exact (search_metrics_append (simModel vHalf) [1] qA storeAB).1 hne
    (scoredResponse qA []) _
    (search_by_vibe_scored (simModel vHalf) [1] qA storeAB [] hne hscore)

/-- C2: a stored product whose raw similarity is strictly below the
threshold never appears in the results (stated via its unique id), and the
comparison is inclusive: a product whose raw similarity equals the threshold
is kept by the filter step (it is in the kept list that is then sorted and
truncated). -/
theorem threshold_filter_inclusive
    (sim : List ℚ → List ℚ → Except String ℚ) (qe : List ℚ) (q : VibeQuery)
    (s : Store) (resp : SearchResponse) (s2 : Store)
    (p : Product) (emb : List ℚ) (sc : ℚ)
    (hsearch : search_by_vibe sim (.ok qe) q s = (.ok resp, s2))
    (hmem : p ∈ s.products) (hemb : p.embedding = some emb)
    (hsim : sim qe emb = .ok sc) :
    (sc < q.threshold → (∀ p2 ∈ s.products, p2.id = p.id → p2 = p) →
      ∀ r ∈ resp.results, r.id ≠ p.id) ∧
    (sc = q.threshold → emb.isEmpty = false → p ∈ s.products.take 100 →
      ∀ l, scoreProducts sim qe q.threshold (s.products.take 100) = .ok l →
        mkResult p sc ∈ l) := by
  constructor
  · intro hlt huniq r hr hid
    rcases search_ok_cases hsearch with ⟨_, hresp, _⟩ | ⟨_, l, hl, hresp, _⟩
    · subst hresp
      simp [noProductsResponse] at hr
    · subst hresp
      have hr2 : r ∈ sortDesc l := by
        have h3 : r ∈ (sortDesc l).take q.limit := hr
        exact List.mem_of_mem_take h3
      have hrl : r ∈ l := mem_sortDesc.mp hr2
      rcases mem_of_scoreProducts_ok hl r hrl with
        ⟨p2, emb2, sc2, hp2mem, hp2emb, _, hp2sim, hp2t, hreq⟩
      have hpid : p2.id = p.id := by
        rw [hreq] at hid
        exact hid
      have hp2full : p2 ∈ s.products := List.mem_of_mem_take hp2mem
      have hp2p : p2 = p := huniq p2 hp2full hpid
      subst hp2p
      rw [hemb] at hp2emb
      injection hp2emb with hee
      subst hee
      rw [hsim] at hp2sim
      injection hp2sim with hsc
      subst hsc
      exact absurd hp2t (not_le.mpr hlt)
  · intro heq hne hpt l hl
    exact scoreProducts_keeps hemb hne hsim (by rw [heq]) hpt hl

/-- Witness for C2: a product scored 0.5 (below the 0.7 threshold) is absent
from the results, and a product scored exactly 0.7 is kept. -/
theorem threshold_filter_inclusive_witness :
    (∀ r ∈ (scoredResponse qA [mkResult prodB (9/10)]).results, r.id ≠ prodA.id) ∧
    mkResult prodA (7/10) ∈ [mkResult prodA (7/10), mkResult prodB (9/10)] := by
  have hneAB : storeAB.products ≠ [] := by simp [storeAB]
  constructor
  · have hscoreLow : scoreProducts (simModel vSplitLow) [1] qA.threshold
        (storeAB.products.take 100) = .ok [mkResult prodB (9/10)] := by
      norm_num [storeAB, prodA, prodB, qA, scoreProducts, simModel, vSplitLow]
    have hsearch := search_by_vibe_scored (simModel vSplitLow) [1] qA storeAB
      [mkResult prodB (9/10)] hneAB hscoreLow
    have huniq : ∀ p2 ∈ storeAB.products, p2.id = prodA.id → p2 = prodA := by
      intro p2 hp2 hid
      rcases List.mem_cons.mp hp2 with rfl | hp3
      · rfl
      · rcases List.mem_cons.mp hp3 with rfl | hp4
        · exact absurd hid (by simp [prodA, prodB])
        · simp at hp4
    exact (threshold_filter_inclusive (simModel vSplitLow) [1] qA storeAB
      (scoredResponse qA [mkResult prodB (9/10)]) _ prodA [1] (1/2)
      hsearch (List.mem_cons_self _ _) rfl
      (by norm_num [simModel, vSplitLow])).1 (by norm_num [qA]) huniq
  · have hscoreEq : scoreProducts (simModel vSplitEq) [1] qA.threshold
        (storeAB.products.take 100) =
          .ok [mkResult prodA (7/10), mkResult prodB (9/10)] := by
      norm_num [storeAB, prodA, prodB, qA, scoreProducts, simModel, vSplitEq]
    have hsearch := search_by_vibe_scored (simModel vSplitEq) [1] qA storeAB
      [mkResult prodA (7/10), mkResult prodB (9/10)] hneAB hscoreEq
    exact (threshold_filter_inclusive (simModel vSplitEq) [1] qA storeAB
      (scoredResponse qA [mkResult prodA (7/10), mkResult prodB (9/10)]) _
      prodA [1] (7/10) hsearch (List.mem_cons_self _ _) rfl
      (by norm_num [simModel, vSplitEq])).2 (by norm_num [qA]) rfl
      (by rw [show storeAB.products = [prodA, prodB] from rfl,
            List.take_of_length_le (by norm_num)]
          exact List.mem_cons_self _ _)
      _ hscoreEq

/-- C3: the results list is sorted by similarity_score descending (each
entry's score is at least the next one's), the results are exactly the
stable sort of the kept list truncated to the limit, and the sort is stable:
entries with any given score keep their store-iteration order. -/
theorem results_sorted_descending_stable
    (sim : List ℚ → List ℚ → Except String ℚ) (qe : List ℚ) (q : VibeQuery)
    (s : Store) (resp : SearchResponse) (s2 : Store)
    (hsearch : search_by_vibe sim (.ok qe) q s = (.ok resp, s2)) :
    (∀ i, (hi : i + 1 < resp.results.length) →
      (resp.results.get ⟨i + 1, hi⟩).similarity_score ≤
        (resp.results.get ⟨i, Nat.lt_of_succ_lt hi⟩).similarity_score) ∧
    (∀ l, scoreProducts sim qe q.threshold (s.products.take 100) = .ok l →
      resp.results = (sortDesc l).take q.limit ∧
      ∀ c : ℚ, (sortDesc l).filter (fun r => decide (r.similarity_score = c)) =
        l.filter (fun r => decide (r.similarity_score = c))) := by
  rcases search_ok_cases hsearch with ⟨hp, hresp, _⟩ | ⟨_, l0, hl0, hresp, _⟩
  · subst hresp
    constructor
    · intro i hi
      simp [noProductsResponse] at hi
    · intro l hl
      rw [hp] at hl
      rw [List.take_nil, scoreProducts_nil] at hl
      injection hl with hle
      subst hle
      refine ⟨?_, fun c => filter_sortDesc c _⟩
      simp [noProductsResponse, sortDesc]
  · subst hresp
    constructor
    · intro i hi
      have hpw : ((sortDesc l0).take q.limit).Pairwise
          (fun a b => b.similarity_score ≤ a.similarity_score) :=
        List.Pairwise.sublist (List.take_sublist q.limit (sortDesc l0))
          (pairwise_sortDesc l0)
      exact List.pairwise_iff_get.mp hpw ⟨i, Nat.lt_of_succ_lt hi⟩ ⟨i + 1, hi⟩
        (Nat.lt_succ_self i)
    · intro l hl
      rw [hl0] at hl
      injection hl with hle
      subst hle
      exact ⟨rfl, fun c => filter_sortDesc c _⟩

/-- Witness for C3 on a two-product store where the sort reverses store
order (scores 0.8 then 0.9). -/
theorem results_sorted_descending_stable_witness :
    (scoredResponse qA lC).results = (sortDesc lC).take qA.limit ∧
    (sortDesc lC).filter (fun r => decide (r.similarity_score = 9/10)) =
      lC.filter (fun r => decide (r.similarity_score = 9/10)) := by
  have hneAB : storeAB.products ≠ [] := by simp [storeAB]
  have hscoreSort : scoreProducts (simModel vSplitSort) [1] qA.threshold
      (storeAB.products.take 100) = .ok lC := by
    norm_num [storeAB, prodA, prodB, qA, scoreProducts, simModel, vSplitSort, lC]
  have h := results_sorted_descending_stable (simModel vSplitSort) [1] qA storeAB
    (scoredResponse qA lC) _
    (search_by_vibe_scored (simModel vSplitSort) [1] qA storeAB lC hneAB hscoreSort)
  exact ⟨(h.2 lC hscoreSort).1, (h.2 lC hscoreSort).2 (9/10)⟩

/-- C4: the number of returned results is at most the requested limit and at
most the number of kept entries (one per stored embedded product whose raw
similarity reached the threshold). -/
theorem results_length_bounded
    (sim : List ℚ → List ℚ → Except String ℚ) (qe : List ℚ) (q : VibeQuery)
    (s : Store) (resp : SearchResponse) (s2 : Store)
    (hsearch : search_by_vibe sim (.ok qe) q s = (.ok resp, s2)) :
    resp.results.length ≤ q.limit ∧
    (∀ l, scoreProducts sim qe q.threshold (s.products.take 100) = .ok l →
      resp.results.length ≤ l.length) := by
  rcases search_ok_cases hsearch with ⟨_, hresp, _⟩ | ⟨_, l0, hl0, hresp, _⟩
  · subst hresp
    exact ⟨Nat.zero_le _, fun l _ => Nat.zero_le _⟩
  · subst hresp
    constructor
    · exact List.length_take_le q.limit (sortDesc l0)
    · intro l hl
      rw [hl0] at hl
      injection hl with hle
      subst hle
      have h1 : ((sortDesc l0).take q.limit).length ≤ (sortDesc l0).length := by
        rw [List.length_take]
        exact min_le_right _ _
      rw [length_sortDesc] at h1
      exact h1

/-- Witness for C4 on the two-product scenario: 2 results, limit 3, 2 kept. -/
theorem results_length_bounded_witness :
    (scoredResponse qA lC).results.length ≤ qA.limit ∧
    (scoredResponse qA lC).results.length ≤ lC.length := by
  have hneAB : storeAB.products ≠ [] := by simp [storeAB]
  have hscoreSort : scoreProducts (simModel vSplitSort) [1] qA.threshold
      (storeAB.products.take 100) = .ok lC := by
    norm_num [storeAB, prodA, prodB, qA, scoreProducts, simModel, vSplitSort, lC]
  have h := results_length_bounded (simModel vSplitSort) [1] qA storeAB
    (scoredResponse qA lC) _
    (search_by_vibe_scored (simModel vSplitSort) [1] qA storeAB lC hneAB hscoreSort)
  exact ⟨h.1, h.2 lC hscoreSort⟩

/-- C5: for a search that does not hit the empty-store short-circuit, the
quality message is "Good match found!" exactly when the top result's
(rounded) similarity_score exceeds 0.8, "Matches found" when results are
non-empty with top score at most 0.8, and the no-matches message when the
results list is empty. -/
theorem quality_message_cases
    (sim : List ℚ → List ℚ → Except String ℚ) (qe : List ℚ) (q : VibeQuery)
    (s : Store) (resp : SearchResponse) (s2 : Store)
    (hne : s.products ≠ [])
    (hsearch : search_by_vibe sim (.ok qe) q s = (.ok resp, s2)) :
    (resp.metrics.message = "Good match found!" ↔
      ∃ r rest, resp.results = r :: rest ∧ 8/10 < r.similarity_score) ∧
    (resp.results = [] →
      resp.metrics.message = "No matches above threshold. Try different vibes!") ∧
    (∀ r rest, resp.results = r :: rest → r.similarity_score ≤ 8/10 →
      resp.metrics.message = "Matches found") := by
  rcases search_ok_cases hsearch with ⟨hp, _, _⟩ | ⟨_, l, _, hresp, _⟩
  · exact absurd hp hne
  · subst hresp
    have key : ∀ res : List SimilarityResult,
        (qualityMessage res = "Good match found!" ↔
          ∃ r rest, res = r :: rest ∧ 8/10 < r.similarity_score) ∧
        (res = [] →
          qualityMessage res = "No matches above threshold. Try different vibes!") ∧
        (∀ r rest, res = r :: rest → r.similarity_score ≤ 8/10 →
          qualityMessage res = "Matches found") := by
      intro res
      cases res with
      | nil =>
        refine ⟨⟨fun h => absurd h (by decide), ?_⟩, fun _ => rfl, ?_⟩
        · rintro ⟨r, rest, h, _⟩
          exact absurd h (by simp)
        · intro r rest h
          exact absurd h (by simp)
      | cons r rest =>
        by_cases h8 : 8/10 < r.similarity_score
        · have hq : qualityMessage (r :: rest) = "Good match found!" := by
            rw [qualityMessage, if_pos h8]
          refine ⟨⟨fun _ => ⟨r, rest, rfl, h8⟩, fun _ => hq⟩, ?_, ?_⟩
          · intro h0
            exact absurd h0 (by simp)
          · intro r2 rest2 heq hle
            injection heq with h1 h2
            subst h1
            exact absurd h8 (not_lt.mpr hle)
        · have hq : qualityMessage (r :: rest) = "Matches found" := by
            rw [qualityMessage, if_neg h8]
          refine ⟨⟨?_, ?_⟩, ?_, ?_⟩
          · intro hmm
            rw [hq] at hmm
            exact absurd hmm (by decide)
          · rintro ⟨r2, rest2, heq, h82⟩
            injection heq with h1 h2
            subst h1
            exact absurd h82 h8
          · intro h0
            exact absurd h0 (by simp)
          · intro r2 rest2 heq hle
            exact hq
    exact key (scoredResults q l)

/-- Witness for C5: top rounded score 0.9 exceeds 0.8, so the message is
"Good match found!". -/
theorem quality_message_cases_witness :
    (scoredResponse qA lC).metrics.message = "Good match found!" := by
  have hneAB : storeAB.products ≠ [] := by simp [storeAB]
  have hscoreSort : scoreProducts (simModel vSplitSort) [1] qA.threshold
      (storeAB.products.take 100) = .ok lC := by
    norm_num [storeAB, prodA, prodB, qA, scoreProducts, simModel, vSplitSort, lC]
  have h := quality_message_cases (simModel vSplitSort) [1] qA storeAB
    (scoredResponse qA lC) _ hneAB
    (search_by_vibe_scored (simModel vSplitSort) [1] qA storeAB lC hneAB hscoreSort)
  apply h.1.mpr
  refine ⟨mkResult prodB (9/10), [mkResult prodA (8/10)], ?_, ?_⟩
  · show (sortDesc lC).take qA.limit = _
    norm_num [lC, sortDesc, insertDesc, mkResult, round4, qA]
  · norm_num [mkResult, round4]

/-- C10: every returned similarity_score is the raw similarity rounded to 4
decimals while the threshold filter compares the raw value, and the recorded
top_score is the rounded score of the first result; consequently, for some
inputs a result's displayed score is strictly below the threshold used
(raw 0.70004 ≥ threshold 0.70003, displayed 0.7), and a raw similarity above
0.8 can still yield the "Matches found" message (raw 0.80004, rounded 0.8). -/
theorem rounded_score_vs_raw :
    (∀ (sim : List ℚ → List ℚ → Except String ℚ) (qe : List ℚ) (q : VibeQuery)
        (s : Store) (resp : SearchResponse) (s2 : Store),
      search_by_vibe sim (.ok qe) q s = (.ok resp, s2) →
      ∀ r ∈ resp.results, ∃ p emb sraw, p ∈ s.products ∧ p.embedding = some emb ∧
        sim qe emb = .ok sraw ∧ q.threshold ≤ sraw ∧
        r.similarity_score = round4 sraw) ∧
    (∀ (sim : List ℚ → List ℚ → Except String ℚ) (qe : List ℚ) (q : VibeQuery)
        (s : Store) (resp : SearchResponse) (s2 : Store),
      search_by_vibe sim (.ok qe) q s = (.ok resp, s2) →
      resp.metrics.top_score = resp.results.head?.map (fun r => r.similarity_score)) ∧
    (∃ resp s2, search_by_vibe (simModel vLow) (.ok [1]) qLow storeA = (.ok resp, s2) ∧
      ∃ r rest, resp.results = r :: rest ∧ r.similarity_score < qLow.threshold) ∧
    (∃ resp s2, search_by_vibe (simModel vHigh) (.ok [1]) qA storeA = (.ok resp, s2) ∧
      8/10 < vHigh [1] [1] ∧ resp.metrics.message = "Matches found") := by
  refine ⟨?_, ?_, ?_, ?_⟩
  · intro sim qe q s resp s2 h r hr
    rcases search_ok_cases h with ⟨_, hresp, _⟩ | ⟨_, l, hl, hresp, _⟩
    · subst hresp
      simp [noProductsResponse] at hr
    · subst hresp
      have hr2 : r ∈ sortDesc l := by
        have h3 : r ∈ (sortDesc l).take q.limit := hr
        exact List.mem_of_mem_take h3
      rcases mem_of_scoreProducts_ok hl r (mem_sortDesc.mp hr2) with
        ⟨p, emb, sc, hpmem, hpemb, _, hpsim, hpt, hreq⟩
      exact ⟨p, emb, sc, List.mem_of_mem_take hpmem, hpemb, hpsim, hpt,
        by rw [hreq]; rfl⟩
  · intro sim qe q s resp s2 h
    rcases search_ok_cases h with ⟨_, hresp, _⟩ | ⟨_, l, _, hresp, _⟩
    · subst hresp
      rfl
    · subst hresp
      rfl
  · have hneA : storeA.products ≠ [] := by simp [storeA]
    have hscoreLow : scoreProducts (simModel vLow) [1] qLow.threshold
        (storeA.products.take 100) = .ok [mkResult prodA (70004/100000)] := by
      norm_num [storeA, prodA, qLow, scoreProducts, simModel, vLow]
    refine ⟨scoredResponse qLow [mkResult prodA (70004/100000)], _,
      search_by_vibe_scored (simModel vLow) [1] qLow storeA
        [mkResult prodA (70004/100000)] hneA hscoreLow,
      mkResult prodA (70004/100000), [], ?_, ?_⟩
    · show (sortDesc [mkResult prodA (70004/100000)]).take qLow.limit = _
      norm_num [sortDesc, insertDesc, qLow]
    · norm_num [mkResult, round4, qLow]
  · have hneA : storeA.products ≠ [] := by simp [storeA]
    have hscoreHigh : scoreProducts (simModel vHigh) [1] qA.threshold
        (storeA.products.take 100) = .ok [mkResult prodA (80004/100000)] := by
      norm_num [storeA, prodA, qA, scoreProducts, simModel, vHigh]
    refine ⟨scoredResponse qA [mkResult prodA (80004/100000)], _,
      search_by_vibe_scored (simModel vHigh) [1] qA storeA
        [mkResult prodA (80004/100000)] hneA hscoreHigh,
      by norm_num [vHigh], ?_⟩
    show qualityMessage
      ((sortDesc [mkResult prodA (80004/100000)]).take qA.limit) = "Matches found"
    norm_num [qualityMessage, sortDesc, insertDesc, mkResult, round4, qA]

/-- Witness for C10: at a concrete two-product search, the recorded
top_score equals the first (rounded) displayed score. -/
theorem rounded_score_vs_raw_witness :
    (scoredResponse qA lC).metrics.top_score =
      (scoredResponse qA lC).results.head?.map (fun r => r.similarity_score) := by
  have hneAB : storeAB.products ≠ [] := by simp [storeAB]
  have hscoreSort : scoreProducts (simModel vSplitSort) [1] qA.threshold
      (storeAB.products.take 100) = .ok lC := by
    norm_num [storeAB, prodA, prodB, qA, scoreProducts, simModel, vSplitSort, lC]
  exact rounded_score_vs_raw.2.1 (simModel vSplitSort) [1] qA storeAB
    (scoredResponse qA lC) _
    (search_by_vibe_scored (simModel vSplitSort) [1] qA storeAB lC hneAB hscoreSort)
